import Mathlib

/-!
Verification of the brain-trip-planner content pipeline (server routes module).

The JavaScript source is embedded shallowly: strings are Lean `String`s over
their characters, JS numbers that carry fractional values are `ℚ`, 32-bit
wrapped integer arithmetic is `ℤ` with explicit reduction modulo `2^32`, and
`Math.random()` draws are an explicit tape of in-range values.  Regular
expressions used by the source are translated into explicit character
scanners with the same matching semantics on the ASCII inputs the code
handles.
-/

/-! ## JS string primitives -/

/-- JS whitespace class (`\s`) restricted to the code points the repository's
data contains: space, tab, newline, carriage return, vertical tab, form feed,
no-break space. -/
def jsWs (c : Char) : Bool :=
  c == ' ' || c == '\t' || c == '\n' || c == '\r' ||
  c == Char.ofNat 11 || c == Char.ofNat 12 || c == Char.ofNat 160

/-- JS word character class (`\w` = `[A-Za-z0-9_]`). -/
def isWordCh (c : Char) : Bool :=
  c.isDigit || c.isUpper || c.isLower || c == '_'

/-- Whether the character preceding the current scan position (if any) is a
word character; used to decide `\b` boundaries. -/
def isWordPrev : Option Char → Bool
  | none => false
  | some c => isWordCh c

/-- `needle` occurs verbatim at the head of the list. -/
def prefixAt : List Char → List Char → Bool
  | [], _ => true
  | _ :: _, [] => false
  | a :: as, b :: bs => a == b && prefixAt as bs

/-- `needle` occurs verbatim anywhere in the list (`String.prototype.includes`). -/
def subsearch (needle : List Char) : List Char → Bool
  | [] => needle.isEmpty
  | c :: t => prefixAt needle (c :: t) || subsearch needle t

/-- `String.prototype.toLowerCase` on the ASCII range. -/
def jsToLower (s : String) : String := ⟨s.data.map Char.toLower⟩

/-- Strip leading and trailing JS whitespace from a character list. -/
def jsTrimList (l : List Char) : List Char :=
  ((l.dropWhile jsWs).reverse.dropWhile jsWs).reverse

/-- `String.prototype.trim`. -/
def jsTrim (s : String) : String := ⟨jsTrimList s.data⟩

/-- Number of maximal non-whitespace runs: the length of
`s.split(/\s+/).filter(Boolean)`.  The flag records whether the scan is
currently inside a word. -/
def countWordsAux : Bool → List Char → Nat
  | _, [] => 0
  | inw, c :: t =>
    if jsWs c then countWordsAux false t
    else (if inw then 0 else 1) + countWordsAux true t

def countWords (l : List Char) : Nat := countWordsAux false l

/-- Sentence-terminal characters of the funFact validator (`[.!?]`). -/
def isTermCh (c : Char) : Bool := c == '.' || c == '!' || c == '?'

/-- Length of `s.split(/[.!?]+/).filter(s => s.trim().length > 0)`: the number
of segments between terminal-punctuation runs that contain at least one
non-whitespace character.  The flag records whether the current segment has
already been counted. -/
def sentCountAux : Bool → List Char → Nat
  | _, [] => 0
  | counted, c :: t =>
    if isTermCh c then sentCountAux false t
    else if !counted && !jsWs c then 1 + sentCountAux true t
    else sentCountAux counted t

def sentenceCount (l : List Char) : Nat := sentCountAux false l

/-- Test of `/\b\d{1,}/`: some digit is preceded by a non-word character or
starts the string. -/
def hasNumberAux : Option Char → List Char → Bool
  | _, [] => false
  | prev, c :: t =>
    (c.isDigit && !isWordPrev prev) || hasNumberAux (some c) t

def hasNumber (l : List Char) : Bool := hasNumberAux none l

/-- After an initial `1` or `2`: three more digits, then end of string or a
non-word character (the trailing `\b` of the year pattern). -/
def yearTail : List Char → Bool
  | a :: b :: d :: rest =>
    a.isDigit && b.isDigit && d.isDigit &&
      (match rest with
       | [] => true
       | e :: _ => !isWordCh e)
  | _ => false

/-- Test of `/\b(1[0-9]{3}|2[0-9]{3})\b/`. -/
def hasYearAux : Option Char → List Char → Bool
  | _, [] => false
  | prev, c :: t =>
    ((c == '1' || c == '2') && !isWordPrev prev && yearTail t) ||
      hasYearAux (some c) t

def hasYear (l : List Char) : Bool := hasYearAux none l

/-- Case-insensitive match of an (already lowercase) pattern at the head of
the list. -/
def ciPrefixAt : List Char → List Char → Bool
  | [], _ => true
  | _ :: _, [] => false
  | a :: as, b :: bs => b.toLower == a && ciPrefixAt as bs

/-- Measurement-unit alternatives of the funFact validator's regex. -/
def unitWords : List String :=
  ["meter", "metre", "foot", "feet", "ton", "kilo", "mile", "acre", "year",
   "centur", "inch", "pound", "hectare", "square", "cubic"]

/-- One of the unit words matches (case-insensitively) at the head. -/
def unitAt (l : List Char) : Bool := unitWords.any fun u => ciPrefixAt u.data l

/-- `[\s-]?` followed by a unit word. -/
def unitOpt (l : List Char) : Bool :=
  unitAt l ||
    (match l with
     | c :: t => (jsWs c || c == '-') && unitAt t
     | [] => false)

/-- After at least one digit has been consumed: either the separator/unit part
matches here, or a further digit is consumed (the backtracking choices of
`\d+`). -/
def digitsThenUnit : List Char → Bool
  | [] => unitOpt []
  | c :: t => unitOpt (c :: t) || (c.isDigit && digitsThenUnit t)

/-- Test of
`/\b\d+[\s-]?(meter|metre|foot|feet|ton|kilo|mile|acre|year|centur|inch|pound|hectare|square|cubic)/i`. -/
def hasMeasurementAux : Option Char → List Char → Bool
  | _, [] => false
  | prev, c :: t =>
    (c.isDigit && !isWordPrev prev && digitsThenUnit t) ||
      hasMeasurementAux (some c) t

def hasMeasurement (l : List Char) : Bool := hasMeasurementAux none l

/-- After an uppercase letter, count lowercase letters; the pattern
`[A-Z][a-z]{2,}\b` succeeds when the run has length at least two and the run
is followed by end of string or a non-word character. -/
def properTail : List Char → Nat → Bool
  | [], n => decide (2 ≤ n)
  | c :: t, n =>
    if c.isLower then properTail t (n + 1)
    else decide (2 ≤ n) && !isWordCh c

/-- Test of `/\b[A-Z][a-z]{2,}\b/`. -/
def hasProperAux : Option Char → List Char → Bool
  | _, [] => false
  | prev, c :: t =>
    (c.isUpper && !isWordPrev prev && properTail t 0) ||
      hasProperAux (some c) t

/-- The list after the first space character, or the whole list when there is
none (`fact.slice(fact.indexOf(" ") + 1)`). -/
def dropAfterSpace : List Char → Option (List Char)
  | [] => none
  | c :: t => if c == ' ' then some t else dropAfterSpace t

def afterFirstSpace (l : List Char) : List Char := (dropAfterSpace l).getD l

/-- The proper-noun signal is evaluated on the text after the first space. -/
def hasProperNoun (fact : String) : Bool :=
  hasProperAux none (afterFirstSpace fact.data)

/-! ## funFact validator (`isValidFunFact`, routes source) -/

def BANNED_FUNFACT_PHRASES : List String :=
  ["popular spot", "notable", "destination", "must-visit", "must visit",
   "perfect for", "great place", "visitors", "atmosphere", "a popular",
   "well-known", "well known", "famous for being", "worth a visit",
   "must-see", "must see"]

def isValidFunFact (fact : String) : Bool :=
  if fact == "" || fact.length < 10 then false
  else
    let lower := jsToLower fact
    if BANNED_FUNFACT_PHRASES.any (fun p => subsearch p.data lower.data) then false
    else
      let words := countWords fact.data
      if words < 12 || words > 25 then false
      else if sentenceCount fact.data > 1 then false
      else
        hasNumber fact.data || hasYear fact.data ||
          hasMeasurement fact.data || hasProperNoun fact

example : isValidFunFact "A popular spot for tourists." = false := by decide
example : isValidFunFact "Built in 1887, the tower weighs 10,100 tons." = false := by decide
example : countWords "Built in 1887, the tower weighs 10,100 tons.".data = 8 := by decide
example :
    isValidFunFact
      "Completed in 1887 after two years of work, the iron tower weighs about 10,100 tons in total." = true := by
  decide

/-! ## Trivia questions, option shuffling and validation -/

/-- The shape of a candidate trivia question once it has survived the dynamic
type checks of the validator (`question` a string, `options` an array of
strings, `correctIndex` a JS number — embedded as `ℚ` since JSON numbers need
not be integers, `funFact` a string). -/
structure TriviaQuestion where
  question : String
  options : List String
  correctIndex : ℚ
  funFact : String
deriving DecidableEq

/-- The JSON number `0.5`, written without `/` so that it evaluates inside
the kernel. -/
def halfQ : ℚ := ⟨1, 2, by decide, Nat.coprime_one_left 2⟩

/-- One question's three `Math.floor(Math.random() * (i + 1))` draws, for
`i = 3, 2, 1`: each is uniformly in `[0, i]`, which the `Fin` types encode
exactly. -/
abbrev RandDraw := Fin 4 × Fin 3 × Fin 2

/-- `[l[i], l[j]] = [l[j], l[i]]` on an array of naturals. -/
def swapL (l : List Nat) (i j : Nat) : List Nat :=
  (l.set i (l.getD j 0)).set j (l.getD i 0)

/-- The Fisher–Yates loop of `shuffleOptions` applied to `[0, 1, 2, 3]`. -/
def permIndices (d : RandDraw) : List Nat :=
  swapL (swapL (swapL [0, 1, 2, 3] 3 d.1) 2 d.2.1) 1 d.2.2

/-- `Array.prototype.indexOf` with accumulator `i`; `-1` when absent. -/
def jsIndexOfAux (a : String) : List String → Int → Int
  | [], _ => -1
  | b :: t, i => if b == a then i else jsIndexOfAux a t (i + 1)

/-- `Array.prototype.indexOf` on an array of strings; the searched value may
be `undefined` (`none`), which never equals a string element. -/
def jsIndexOf (l : List String) (x : Option String) : Int :=
  match x with
  | none => -1
  | some a => jsIndexOfAux a l 0

/-- JS array subscripting by an arbitrary number: defined (`some`) exactly for
integral indices within bounds, `undefined` (`none`) otherwise. -/
def jsIndexQ (l : List String) (x : ℚ) : Option String :=
  if x.den = 1 ∧ 0 ≤ x.num then l.get? x.num.toNat else none

/-- `shuffleOptions` from the routes source: remember the value at
`options[correctIndex]`, shuffle `[0,1,2,3]` by Fisher–Yates, rebuild the
options in that order, and recompute `correctIndex` with `indexOf`. -/
def shuffleOptions (q : TriviaQuestion) (d : RandDraw) : TriviaQuestion :=
  let correctAnswer := jsIndexQ q.options q.correctIndex
  let shuffled := (permIndices d).map fun i => q.options.getD i ""
  { q with options := shuffled,
           correctIndex := ((jsIndexOf shuffled correctAnswer : Int) : ℚ) }

/-- `.map(shuffleOptions)` where the `k`-th element consumes the `k`-th draw
of the random tape. -/
def mapShuffle (tape : Nat → RandDraw) : Nat → List TriviaQuestion → List TriviaQuestion
  | _, [] => []
  | k, q :: qs => shuffleOptions q (tape k) :: mapShuffle tape (k + 1) qs

/-- `s.toLowerCase().trim()`, the normalization used for dedup keys. -/
def normKey (s : String) : String := jsTrim (jsToLower s)

/-- Line terminators that `.` does not match in a JS regex. -/
def isLineTermCh (c : Char) : Bool :=
  c == '\n' || c == '\r' || c == Char.ofNat 0x2028 || c == Char.ofNat 0x2029

/-- `p` occurs in the list before any line terminator. -/
def subBeforeNl (p : List Char) : List Char → Bool
  | [] => p.isEmpty
  | c :: t => prefixAt p (c :: t) || (!isLineTermCh c && subBeforeNl p t)

/-- Match of `p₁` followed (with `.*` in between, on one line) by `p₂`. -/
def seqSearch (p₁ p₂ : List Char) : List Char → Bool
  | [] => p₁.isEmpty && p₂.isEmpty
  | c :: t =>
    (prefixAt p₁ (c :: t) && subBeforeNl p₂ ((c :: t).drop p₁.length)) ||
      seqSearch p₁ p₂ t

/-- The `GENERIC_PATTERNS` tests of `validateTriviaQuestions`, evaluated
case-insensitively against the question text. -/
def genericQuestionHit (question : String) : Bool :=
  let ql := question.data.map Char.toLower
  subsearch "what is the capital".data ql ||
    subsearch "which currency".data ql ||
    seqSearch "what language".data "spoken".data ql ||
    subsearch "what continent".data ql ||
    subsearch "what is the population".data ql ||
    seqSearch "which country".data "located".data ql

/-- The per-question acceptance test inside `validateTriviaQuestions`. -/
def triviaFilterOk (q : TriviaQuestion) : Bool :=
  q.question != "" &&
    q.options.length == 4 &&
    decide (0 ≤ q.correctIndex) && decide (q.correctIndex ≤ 3) &&
    ((q.options.map normKey).dedup.length == 4) &&
    q.funFact != "" && decide (5 ≤ (jsTrim q.funFact).length) &&
    !genericQuestionHit q.question

/-- `validateTriviaQuestions` from the routes source: filter, then shuffle the
survivors' options. -/
def validateTriviaQuestions (questions : List TriviaQuestion) (tape : Nat → RandDraw) :
    List TriviaQuestion :=
  mapShuffle tape 0 (questions.filter triviaFilterOk)

/-- `checkAnswerDistribution` from the routes source. -/
def checkAnswerDistribution (questions : List TriviaQuestion) : Bool :=
  if questions.length < 4 then true
  else if questions.all (fun q => q.correctIndex == 0) then false
  else true

example :
    (validateTriviaQuestions
        [⟨"In which year was the stone bridge built?", ["a", "b", "c", "d"], halfQ, "hello"⟩]
        (fun _ => (0, 0, 0))).map TriviaQuestion.correctIndex = [(-1 : ℚ)] := by
  decide

example :
    (validateTriviaQuestions
        [⟨"In which year was the stone bridge built?", ["a", "b", "c", "d"], (2 : ℚ), "hello"⟩]
        (fun _ => (0, 0, 0))).map TriviaQuestion.correctIndex = [(1 : ℚ)] := by
  decide

example :
    (validateTriviaQuestions
        [⟨"What is the capital of France?", ["a", "b", "c", "d"], (2 : ℚ), "hello"⟩]
        (fun _ => (0, 0, 0))) = [] := by
  decide

/-! ## Stable question id (`generateQuestionId`) -/

/-- JS `| 0`: reduce a number to its 32-bit two's-complement value.  The
numerals are `2^31` and `2^32`. -/
def toInt32 (x : Int) : Int := (x + 2147483648) % 4294967296 - 2147483648

/-- One loop iteration of the source hash:
`hash = ((hash << 5) - hash) + chr; hash |= 0`.  `<<` itself truncates its
operand and its result to 32 bits. -/
def jsHashStep (h : Int) (c : Nat) : Int :=
  toInt32 (toInt32 (toInt32 h * 32) - h + c)

/-- The hash loop over a string's character codes, starting from 0. -/
def jsHashString (s : String) : Int :=
  s.data.foldl (fun h c => jsHashStep h c.toNat) 0

/-- Base-36 digit characters `0-9a-z` used by `Number.prototype.toString(36)`. -/
def digitChar36 (n : Nat) : Char :=
  if n < 10 then Char.ofNat (48 + n) else Char.ofNat (87 + n)

/-- Big-endian base-36 digit expansion, fuelled so it computes by structural
recursion. -/
def base36Aux : Nat → Nat → List Char
  | 0, _ => []
  | fuel + 1, n => if n = 0 then [] else base36Aux fuel (n / 36) ++ [digitChar36 (n % 36)]

/-- `Number.prototype.toString(36)` for a natural number. -/
def natToBase36 (n : Nat) : String :=
  if n = 0 then "0" else ⟨base36Aux (n + 1) n⟩

/-- `generateQuestionId` from the routes source. -/
def generateQuestionId (cityPlaceId difficulty questionText : String) : String :=
  natToBase36 (jsHashString (cityPlaceId ++ "|" ++ difficulty ++ "|" ++ questionText)).natAbs

/-- Modelled from the spec's words for comparison: the 32-bit-wrapped rolling
hash `h = h * 31 + charCode` over `placeId|difficulty|questionText`, rendered
as a non-negative base-36 string. -/
def specQuestionId (cityPlaceId difficulty questionText : String) : String :=
  natToBase36 (((cityPlaceId ++ "|" ++ difficulty ++ "|" ++ questionText).data.foldl
    (fun h c => toInt32 (h * 31 + c.toNat)) 0).natAbs)

example : natToBase36 0 = "0" := by decide
example : natToBase36 35 = "z" := by decide
example : natToBase36 37 = "11" := by decide

/-! ## Suggestions ranking comparator -/

/-- A pool entry after the route has attached `distanceKm` and
`popularityScore` (`{...p, distanceKm, popularityScore}`). -/
structure RankedPOI where
  title : String
  lat : ℚ
  lng : ℚ
  category : String
  address : String
  placeId : String
  rating : ℚ
  userRatingCount : ℚ
  distanceKm : Option ℚ
  popularityScore : ℚ
deriving DecidableEq

/-- `getBucket` from the suggestions route: the insertion index of `score` in
the ascending array of popularity scores, divided by the array length, times
10, floored.  The division is exact rational arithmetic
(`⌊10·idx / len⌋` via `Rat.divInt`); the source's float arithmetic agrees on
the pools at hand.  An empty score array (division by zero, NaN in JS) is
never consulted because the comparator only runs on a non-empty pool. -/
def getBucket (popValues : List ℚ) (score : ℚ) : Int :=
  let idx : Int :=
    match popValues.findIdx? (fun v => decide (score ≤ v)) with
    | some i => (i : Int)
    | none => (popValues.length : Int)
  Rat.floor (Rat.divInt (10 * idx) (popValues.length : Int))

/-- The comparator passed to `ranked.sort` in the suggestions route: buckets
descending, then (when both distances are known) distance ascending, else 0. -/
def rankCompare (popValues : List ℚ) (a b : RankedPOI) : ℚ :=
  let bucketA := getBucket popValues a.popularityScore
  let bucketB := getBucket popValues b.popularityScore
  if bucketB ≠ bucketA then ((bucketB - bucketA : Int) : ℚ)
  else
    match a.distanceKm, b.distanceKm with
    | some da, some db => da - db
    | _, _ => 0

example : getBucket [1, 2, 3, 4] 3 = 5 := by decide
example : getBucket [1, 2, 3, 4] 5 = 10 := by decide
example : getBucket [1, 2, 3, 4] 1 = 0 := by decide

/-! ## Defensive JSON parsing (`safeJsonParse`)

`JSON.parse` is a platform builtin, not code of this repository, so it is
modelled as an arbitrary parameter `jp : String → Option Json`: `some v` when
the builtin returns value `v`, `none` when it throws. -/

inductive Json where
  | null : Json
  | bool (b : Bool) : Json
  | num (q : ℚ) : Json
  | str (s : String) : Json
  | arr (elems : List Json) : Json
  | obj (fields : List (String × Json)) : Json

/-- Optional-chained property access `j?.k`: `none` is `undefined`. -/
def jsGet (j : Json) (k : String) : Option Json :=
  match j with
  | Json.obj fs => (fs.find? (fun f => f.1 == k)).map (fun f => f.2)
  | _ => none

/-- JS truthiness of a JSON value. -/
def jsTruthy : Json → Bool
  | Json.null => false
  | Json.bool b => b
  | Json.num q => !(q == 0)
  | Json.str s => s != ""
  | Json.arr _ => true
  | Json.obj _ => true

def isJsonArr : Json → Bool
  | Json.arr _ => true
  | _ => false

/-- Drop one leading newline, as the `\n?` of the fence-stripping regexes. -/
def dropOptNl : List Char → List Char
  | [] => []
  | c :: t => if c = '\n' then t else c :: t

def backtickCh : Char := Char.ofNat 96
def lbraceCh : Char := Char.ofNat 123
def rbraceCh : Char := Char.ofNat 125

/-- Global replacement of the tag `c₀ :: rest` plus an optional trailing
newline by the empty string, scanning left to right without revisiting
replaced text (`String.prototype.replace` with a `g` regex).  The fuel is the
input length, which bounds the number of scan steps since every step consumes
at least one character. -/
def stripTagAllF (c₀ : Char) (rest : List Char) : Nat → List Char → List Char
  | 0, l => l
  | _ + 1, [] => []
  | fuel + 1, c :: t =>
    if prefixAt (c₀ :: rest) (c :: t) then
      stripTagAllF c₀ rest fuel (dropOptNl (t.drop rest.length))
    else c :: stripTagAllF c₀ rest fuel t

def stripTagAll (c₀ : Char) (rest : List Char) (l : List Char) : List Char :=
  stripTagAllF c₀ rest l.length l

/-- `text.replace(/```json\n?/g, "").replace(/```\n?/g, "").trim()`. -/
def stripFences (text : String) : String :=
  jsTrim ⟨stripTagAll backtickCh "``".data (stripTagAll backtickCh "``json".data text.data)⟩

/-- The first match of `/\[[\s\S]*\]/`-style regexes: from the first opening
delimiter to the last closing delimiter, provided the latter comes later. -/
def extractDelim (oc cc : Char) (l : List Char) : Option (List Char) :=
  match l.findIdx? (fun c => c == oc) with
  | none => none
  | some i =>
    match l.reverse.findIdx? (fun c => c == cc) with
    | none => none
    | some j' =>
      let j := l.length - 1 - j'
      if i < j then some ((l.drop i).take (j - i + 1)) else none

/-- The text captured by `text.match(/\[[\s\S]*\]/)`. -/
def arrSeg (text : String) : Option String := (extractDelim '[' ']' text.data).map List.asString

/-- The text captured by the brace analogue for objects. -/
def objSeg (text : String) : Option String :=
  (extractDelim lbraceCh rbraceCh text.data).map List.asString

/-- `safeJsonParse` from the routes source: direct parse of the fence-stripped
text; on throw, parse the first bracketed array of the original text; when no
array match exists, parse the first braced object; any remaining failure is
`null`. -/
def safeJsonParse (jp : String → Option Json) (text : String) : Json :=
  match jp (stripFences text) with
  | some v => v
  | none =>
    match arrSeg text with
    | some seg =>
      match jp seg with
      | some v => v
      | none => Json.null
    | none =>
      match objSeg text with
      | some seg =>
        match jp seg with
        | some v => v
        | none => Json.null
      | none => Json.null

/-- The quiz route's post-parse step:
`if (!Array.isArray(parsed)) parsed = parsed?.questions || [];`. -/
def quizCandidates (parsed : Json) : Json :=
  if isJsonArr parsed then parsed
  else
    match jsGet parsed "questions" with
    | some v => if jsTruthy v then v else Json.arr []
    | none => Json.arr []

example : safeJsonParse (fun _ => none) "no brackets here" = Json.null := by rfl
example : arrSeg "xx[1,2]yy" = some "[1,2]" := by rfl
example : stripFences " x " = "x" := by rfl

/-! ## Suggestion validation (`validateSuggestions`) -/

structure Suggestion where
  title : String
  description : String
  category : String
  funFact : String
  address : String
  placeId : String
  lat : ℚ
  lng : ℚ
  enriched : Bool
deriving DecidableEq

/-- The stateful filter body of `validateSuggestions`; `seen` is the set of
normalized titles already kept within this response. -/
def validateSuggestionsGo (titleSet pidSet : List String) :
    List String → List Suggestion → List Suggestion
  | _, [] => []
  | seen, s :: rest =>
    if s.title != "" && s.description != "" && s.category != "" then
      if titleSet.contains (normKey s.title) || seen.contains (normKey s.title) then
        validateSuggestionsGo titleSet pidSet seen rest
      else if s.placeId != "" && pidSet.contains s.placeId then
        validateSuggestionsGo titleSet pidSet seen rest
      else s :: validateSuggestionsGo titleSet pidSet (normKey s.title :: seen) rest
    else validateSuggestionsGo titleSet pidSet seen rest

/-- `validateSuggestions` from the routes source: the exclusion sets are the
normalized excluded titles and the truthy excluded place ids. -/
def validateSuggestions (suggestions : List Suggestion)
    (excludeTitles excludePlaceIds : List String) : List Suggestion :=
  validateSuggestionsGo (excludeTitles.map normKey)
    (excludePlaceIds.filter (fun p => p != "")) [] suggestions

/-! ## Geocode endpoint state machine (`POST /api/geocode`) -/

structure GeoCoords where
  lat : ℚ
  lng : ℚ
deriving DecidableEq

/-- Outcome of the one Nominatim fetch a cache miss performs.  A response
body that is not an array behaves exactly like an empty result array in the
source, so both are `results []`. -/
inductive ProviderOutcome where
  | abortError : ProviderOutcome
  | networkError : ProviderOutcome
  | results (rs : List GeoCoords) : ProviderOutcome

structure GeoResponse where
  status : Nat
  coords : Option GeoCoords
deriving DecidableEq

/-- One request to `POST /api/geocode`, as a function of the cache state, the
current time (never consulted: the cache has no TTL), the request address and
the provider outcome.  Returns the response, the new cache state, and whether
a provider query was issued. -/
def geocodeStep (cache : List (String × Option GeoCoords)) (_now : Nat)
    (address : String) (prov : ProviderOutcome) :
    GeoResponse × List (String × Option GeoCoords) × Bool :=
  if address == "" then (⟨400, none⟩, cache, false)
  else
    let key := normKey address
    match cache.lookup key with
    | some (some c) => (⟨200, some c⟩, cache, false)
    | some none => (⟨404, none⟩, cache, false)
    | none =>
      match prov with
      | ProviderOutcome.abortError => (⟨504, none⟩, cache, true)
      | ProviderOutcome.networkError => (⟨500, none⟩, cache, true)
      | ProviderOutcome.results [] => (⟨404, none⟩, (key, none) :: cache, true)
      | ProviderOutcome.results (c :: _) => (⟨200, some c⟩, (key, some c) :: cache, true)

/-! ## Curated fallback questions and the quiz error handler -/

def CURATED_QUESTIONS : List (String × List TriviaQuestion) :=
  [("new york",
    [⟨"What year was the Statue of Liberty dedicated?", ["1876", "1886", "1896", "1906"], 1,
      "The statue was a gift from France to the United States."⟩,
     ⟨"Which borough of New York is the most populous?", ["Manhattan", "Queens", "Brooklyn", "The Bronx"], 2,
      "Brooklyn would be the fourth-largest city in the US if it were independent."⟩,
     ⟨"What was Times Square originally called?", ["Herald Square", "Longacre Square", "Madison Square", "Union Square"], 1,
      "It was renamed in 1904 after The New York Times moved its headquarters there."⟩,
     ⟨"How long is the Brooklyn Bridge?", ["1,825 feet", "3,460 feet", "5,989 feet", "8,120 feet"], 2,
      "When completed in 1883, it was the longest suspension bridge in the world."⟩,
     ⟨"Which park is the largest in Manhattan?", ["Central Park", "Riverside Park", "Inwood Hill Park", "Battery Park"], 0,
      "Central Park spans 843 acres and was the first public park in America."⟩,
     ⟨"What style of pizza is New York famous for?", ["Deep dish", "Thin crust foldable slices", "Sicilian square", "Stuffed crust"], 1,
      "New York-style pizza is characterized by its large, foldable slices with a thin, crispy crust."⟩,
     ⟨"Which museum has the Temple of Dendur?", ["MoMA", "The Met", "Guggenheim", "Whitney"], 1,
      "The temple is over 2,000 years old and was gifted by Egypt in 1965."⟩,
     ⟨"How many islands make up New York City?", ["1", "3", "5", "Over 40"], 3,
      "NYC sits on over 40 islands, including Manhattan, Staten Island, and Roosevelt Island."⟩]),
   ("paris",
    [⟨"In what year was the Eiffel Tower completed?", ["1879", "1889", "1899", "1909"], 1,
      "The tower was built for the 1889 World's Fair and was initially criticized by many Parisians."⟩,
     ⟨"How many artworks does the Louvre house?", ["38,000", "100,000", "280,000", "Over 380,000"], 3,
      "It would take about 200 days to see every piece spending 30 seconds on each."⟩,
     ⟨"What river runs through Paris?", ["Rhine", "Loire", "Seine", "Danube"], 2,
      "The Seine divides Paris into the Left Bank and Right Bank."⟩,
     ⟨"When did construction of Notre-Dame begin?", ["963 AD", "1063 AD", "1163 AD", "1263 AD"], 2,
      "It took nearly 200 years to complete the cathedral."⟩,
     ⟨"What keeps Sacre-Coeur white?", ["Annual painting", "Calcite in the stone", "Marble cladding", "Regular bleaching"], 1,
      "The stone exudes calcite when it rains, naturally whitening the basilica."⟩,
     ⟨"Who created the Jardin du Luxembourg?", ["Louis XIV", "Napoleon", "Marie de Medici", "Baron Haussmann"], 2,
      "The gardens were inspired by the Boboli Gardens in Florence."⟩,
     ⟨"Which arrondissement is the Latin Quarter in?", ["1st", "5th", "10th", "16th"], 1,
      "It is called the Latin Quarter because Latin was the language of learning there for centuries."⟩,
     ⟨"How tall is the Eiffel Tower?", ["224 meters", "270 meters", "330 meters", "400 meters"], 2,
      "The tower grows about 15 cm taller in summer due to thermal expansion of the iron."⟩]),
   ("rome",
    [⟨"How many spectators could the Colosseum hold?", ["25,000", "50,000", "80,000", "120,000"], 1,
      "The Colosseum could even be flooded for mock naval battles."⟩,
     ⟨"Who painted the Sistine Chapel ceiling?", ["Leonardo da Vinci", "Raphael", "Michelangelo", "Caravaggio"], 2,
      "Michelangelo painted it while standing, not lying on his back as commonly believed."⟩,
     ⟨"How much money is thrown into the Trevi Fountain daily?", ["About 300 euros", "About 1,000 euros", "About 3,000 euros", "About 10,000 euros"], 2,
      "The collected coins are donated to Caritas, a Catholic charity."⟩,
     ⟨"What is the hole at the top of the Pantheon called?", ["Cupola", "Oculus", "Rotunda", "Atrium"], 1,
      "The oculus is the Pantheon's only source of natural light and lets in rain and sunlight."⟩,
     ⟨"What does 'Trastevere' mean?", ["Old town", "Beyond the Tiber", "Holy ground", "Market place"], 1,
      "Trastevere was historically home to Rome's working class."⟩,
     ⟨"How old is the Pantheon approximately?", ["1,000 years", "1,500 years", "2,000 years", "2,500 years"], 2,
      "It has the world's largest unreinforced concrete dome, a feat of ancient engineering."⟩,
     ⟨"Which hill is NOT one of the seven hills of Rome?", ["Palatine", "Aventine", "Capitoline", "Vatican"], 3,
      "Vatican Hill is west of the Tiber and was not part of the original seven hills."⟩,
     ⟨"What is a traditional Roman pasta dish?", ["Pesto Genovese", "Cacio e Pepe", "Bolognese", "Puttanesca"], 1,
      "Cacio e Pepe means 'cheese and pepper' and uses just three ingredients."⟩]),
   ("tokyo",
    [⟨"How old is Senso-ji Temple?", ["About 500 years", "About 900 years", "About 1,400 years", "About 2,000 years"], 2,
      "Senso-ji was founded in 645 AD, making it Tokyo's oldest temple."⟩,
     ⟨"How many trees are in Meiji Shrine's forest?", ["10,000", "50,000", "120,000", "300,000"], 2,
      "All 120,000 trees were donated from across Japan when the shrine was built."⟩,
     ⟨"How many people cross Shibuya Crossing at once?", ["500", "1,000", "3,000", "5,000"], 2,
      "It is often called 'The Scramble' and is one of the most filmed locations in the world."⟩,
     ⟨"What was the original name of Tokyo?", ["Osaka", "Kyoto", "Edo", "Nara"], 2,
      "Edo was renamed Tokyo, meaning 'Eastern Capital,' in 1868."⟩,
     ⟨"Why is Tokyo Tower painted orange and white?", ["Cultural tradition", "Aviation safety", "Imperial decree", "Artistic choice"], 1,
      "The colors comply with international aviation safety regulations."⟩,
     ⟨"When did Shinjuku Gyoen open to the public?", ["1889", "1919", "1949", "1969"], 2,
      "It was originally a private garden for the Imperial family."⟩,
     ⟨"What is the busiest train station in the world?", ["Tokyo Station", "Shibuya Station", "Shinjuku Station", "Ikebukuro Station"], 2,
      "Shinjuku Station handles over 3.5 million passengers daily."⟩,
     ⟨"Which traditional market moved to Toyosu?", ["Ameyoko", "Tsukiji inner market", "Nakamise", "Omotesando"], 1,
      "The outer market at Tsukiji still operates with over 400 shops."⟩]),
   ("chicago",
    [⟨"What is Cloud Gate commonly known as?", ["The Mirror", "The Bean", "The Drop", "The Orb"], 1,
      "Cloud Gate is made of 168 stainless steel plates welded together with no visible seams."⟩,
     ⟨"When was Willis Tower the world's tallest building?", ["1963-1988", "1973-1998", "1983-2008", "1993-2010"], 1,
      "Willis Tower held the record for 25 years until the Petronas Towers surpassed it."⟩,
     ⟨"What color is the Chicago River dyed on St. Patrick's Day?", ["Blue", "Orange", "Green", "Gold"], 2,
      "The tradition of dyeing the river green has been going on since 1962."⟩,
     ⟨"What style of pizza is Chicago famous for?", ["Thin crust", "Deep dish", "Neapolitan", "Flatbread"], 1,
      "Deep dish pizza was invented at Pizzeria Uno in Chicago in 1943."⟩,
     ⟨"When was Navy Pier originally built?", ["1896", "1906", "1916", "1926"], 2,
      "Navy Pier served as a Navy training center during World War II."⟩,
     ⟨"What is Chicago's nickname?", ["The Big Apple", "The Windy City", "Motor City", "The Gateway"], 1,
      "The nickname may refer to boastful politicians rather than actual wind."⟩,
     ⟨"Which famous architect designed many buildings in Chicago?", ["Frank Gehry", "Frank Lloyd Wright", "I.M. Pei", "Zaha Hadid"], 1,
      "Wright's Home and Studio in Oak Park is one of Chicago's most visited landmarks."⟩,
     ⟨"What body of water borders Chicago?", ["Lake Erie", "Lake Huron", "Lake Michigan", "Lake Superior"], 2,
      "Chicago's lakefront trail stretches 18 miles along the shores of Lake Michigan."⟩])]

/-- The generic template questions returned when no curated city matches. -/
def genericFallback (city : String) : List TriviaQuestion :=
  [⟨"What is a common way to explore " ++ city ++ "?",
    ["Walking tour", "Submarine ride", "Private helicopter", "Hot air balloon"], 0,
    "Walking tours are one of the best ways to discover hidden gems in any city."⟩,
   ⟨"What should travelers try when visiting " ++ city ++ "?",
    ["Local cuisine", "Only chain restaurants", "Only hotel food", "Packaged snacks"], 0,
    "Trying local food is often the highlight of any trip."⟩,
   ⟨"Which is the best way to learn about " ++ city ++ "'s culture?",
    ["Visit local museums", "Stay at the hotel", "Only read guidebooks", "Watch TV"], 0,
    "Museums offer fascinating insights into a city's culture and heritage."⟩,
   ⟨"What makes " ++ city ++ " a popular travel destination?",
    ["Rich history and culture", "Free hotels", "No other cities nearby", "Mandatory visits"], 0,
    "Cities with diverse cultural offerings tend to attract the most visitors."⟩,
   ⟨"What is often found in " ++ city ++ "'s historic districts?",
    ["Traditional architecture", "Only modern buildings", "Empty lots", "Parking garages"], 0,
    "Historic districts preserve the architectural heritage that tells a city's story."⟩]

/-- `getFallbackQuestions` from the routes source: first curated city whose
normalized name and the normalized request city contain one another, else the
generic template set. -/
def getFallbackQuestions (city : String) : List TriviaQuestion :=
  let key := normKey city
  match CURATED_QUESTIONS.find? (fun e => subsearch e.1.data key.data || subsearch key.data e.1.data) with
  | some e => e.2
  | none => genericFallback city

/-- The response of `POST /api/quiz/generate`. -/
structure QuizResponse where
  status : Nat
  questions : List TriviaQuestion
  questionIds : List String
  poolExhausted : Bool
  source : String
deriving DecidableEq

/-- The `catch` handler of `POST /api/quiz/generate`: with a truthy
`cityPlaceId` in the request body, a 503 with empty arrays and source
`"error"`; otherwise a 200 with the shuffled fallback questions and source
`"fallback"`.  `city` and `cityPlaceId` are the (string) request body fields,
with `""` standing for absent or falsy. -/
def quizCatchHandler (city cityPlaceId : String) (tape : Nat → RandDraw) : QuizResponse :=
  if cityPlaceId != "" then
    ⟨503, [], [], false, "error"⟩
  else
    ⟨200, mapShuffle tape 0 (getFallbackQuestions (if city == "" then "the city" else city)),
     [], false, "fallback"⟩

example :
    (getFallbackQuestions "New York, NY").map (fun q => q.options.length) =
      [4, 4, 4, 4, 4, 4, 4, 4] := by decide
example : (getFallbackQuestions "Atlantis").length = 5 := by decide

/-! ## Supporting lemmas -/

theorem toInt32_emod (x : Int) : toInt32 x % 4294967296 = x % 4294967296 := by
  unfold toInt32
  omega

theorem toInt32_congr {x y : Int} (h : x % 4294967296 = y % 4294967296) :
    toInt32 x = toInt32 y := by
  unfold toInt32
  omega

theorem jsHashStep_eq (h : Int) (c : Nat) : jsHashStep h c = toInt32 (h * 31 + c) := by
  unfold jsHashStep
  apply toInt32_congr
  have e1 := toInt32_emod (toInt32 h * 32)
  have e2 := toInt32_emod h
  omega

/-- C5: `generateQuestionId` is a pure function of its three arguments (so
identical triples give identical ids, in-process and across restarts), and it
equals the spec's description: the base-36 rendering of the absolute value of
the 32-bit-wrapped rolling hash `h = h * 31 + charCode` over
`cityPlaceId|difficulty|questionText`. -/
theorem generateQuestionId_eq_spec (a d t : String) :
    generateQuestionId a d t = specQuestionId a d t := by
  have hf : (fun (h : Int) (c : Char) => jsHashStep h c.toNat) =
      fun (h : Int) (c : Char) => toInt32 (h * 31 + c.toNat) := by
    funext h c
    exact jsHashStep_eq h c.toNat
  simp [generateQuestionId, specQuestionId, jsHashString, hf]

/-- C1 (counterexample): the spec's example pair fails on the code: the
string `"Built in 1887, the tower weighs 10,100 tons."` has 8
whitespace-separated words, below the validator's lower bound of 12, so
`isValidFunFact` rejects it. -/
theorem isValidFunFact_example_pair_false :
    ¬(isValidFunFact "A popular spot for tourists." = false ∧
      isValidFunFact "Built in 1887, the tower weighs 10,100 tons." = true) := by
  decide

/-- C1 (amended): `isValidFunFact` rejects both example strings: the first
for its banned marketing phrases (and missing signals), the second because
its word count (8) falls outside `[12, 25]`. -/
theorem isValidFunFact_examples :
    isValidFunFact "A popular spot for tourists." = false ∧
    isValidFunFact "Built in 1887, the tower weighs 10,100 tons." = false := by
  decide

/-! ## Shuffle lemmas -/

theorem permIndices_perm : ∀ d : RandDraw, (permIndices d).Perm [0, 1, 2, 3] := by
  decide

theorem map_getD_eq_self (l : List String) (h : l.length = 4) :
    [0, 1, 2, 3].map (fun i => l.getD i "") = l := by
  rcases l with _ | ⟨a, _ | ⟨b, _ | ⟨c, _ | ⟨e, _ | ⟨f, t⟩⟩⟩⟩⟩ <;> simp_all [List.getD]

theorem shuffleOptions_options (q : TriviaQuestion) (d : RandDraw) :
    (shuffleOptions q d).options = (permIndices d).map fun i => q.options.getD i "" := rfl

theorem shuffleOptions_funFact (q : TriviaQuestion) (d : RandDraw) :
    (shuffleOptions q d).funFact = q.funFact := rfl

theorem shuffleOptions_correctIndex (q : TriviaQuestion) (d : RandDraw) :
    (shuffleOptions q d).correctIndex =
      ((jsIndexOf (shuffleOptions q d).options (jsIndexQ q.options q.correctIndex) : Int) : ℚ) := rfl

theorem shuffled_perm (q : TriviaQuestion) (d : RandDraw) (h : q.options.length = 4) :
    (shuffleOptions q d).options.Perm q.options := by
  rw [shuffleOptions_options]
  have h1 := (permIndices_perm d).map fun i => q.options.getD i ""
  rwa [map_getD_eq_self q.options h] at h1

theorem jsIndexOfAux_spec (a : String) :
    ∀ (l : List String) (i : Int), a ∈ l →
      ∃ k : Nat, jsIndexOfAux a l i = i + k ∧ l.get? k = some a := by
  intro l
  induction l with
  | nil => intro i h; simp at h
  | cons b t ih =>
    intro i h
    by_cases hb : b = a
    · exact ⟨0, by simp [jsIndexOfAux, hb], by simp [hb]⟩
    · have ht : a ∈ t := by
        rcases List.mem_cons.mp h with h1 | h1
        · exact absurd h1.symm hb
        · exact h1
      obtain ⟨k, hk1, hk2⟩ := ih (i + 1) ht
      refine ⟨k + 1, ?_, by simpa using hk2⟩
      have hba : (b == a) = false := by simp [hb]
      simp only [jsIndexOfAux, hba, Bool.false_eq_true, if_false, hk1]
      push_cast
      ring

theorem jsIndexOf_of_mem (a : String) (l : List String) (h : a ∈ l) :
    ∃ k : Nat, jsIndexOf l (some a) = (k : Int) ∧ l.get? k = some a := by
  obtain ⟨k, hk1, hk2⟩ := jsIndexOfAux_spec a l 0 h
  exact ⟨k, by simpa [jsIndexOf] using hk1, hk2⟩

theorem jsIndexQ_mem {l : List String} {x : ℚ} {a : String}
    (h : jsIndexQ l x = some a) : a ∈ l := by
  unfold jsIndexQ at h
  split at h
  · exact List.get?_mem h
  · exact absurd h (by simp)

theorem jsIndexQ_natCast (l : List String) (k : Nat) :
    jsIndexQ l (((k : Int) : ℚ)) = l.get? k := by
  simp [jsIndexQ]

theorem jsIndexQ_negOne (l : List String) :
    jsIndexQ l (((-1 : Int) : ℚ)) = none := by
  simp [jsIndexQ]

theorem mem_mapShuffle {tape : Nat → RandDraw} :
    ∀ {k : Nat} {l : List TriviaQuestion} {q' : TriviaQuestion},
      q' ∈ mapShuffle tape k l → ∃ q ∈ l, ∃ j, q' = shuffleOptions q (tape j) := by
  intro k l
  induction l generalizing k with
  | nil => intro q' h; simp [mapShuffle] at h
  | cons q qs ih =>
    intro q' h
    rw [mapShuffle] at h
    rcases List.mem_cons.mp h with h1 | h1
    · exact ⟨q, List.mem_cons_self q qs, k, h1⟩
    · obtain ⟨q₀, hq₀, j, hj⟩ := ih h1
      exact ⟨q₀, List.mem_cons_of_mem q hq₀, j, hj⟩

theorem triviaFilterOk_iff (q : TriviaQuestion) :
    triviaFilterOk q = true ↔
      q.question ≠ "" ∧ q.options.length = 4 ∧ 0 ≤ q.correctIndex ∧ q.correctIndex ≤ 3 ∧
      (q.options.map normKey).dedup.length = 4 ∧ q.funFact ≠ "" ∧
      5 ≤ (jsTrim q.funFact).length ∧ genericQuestionHit q.question = false := by
  simp [triviaFilterOk, Bool.and_eq_true, bne_iff_ne, beq_iff_eq, decide_eq_true_eq,
    Bool.not_eq_true', and_assoc]

theorem shuffle_correctIndex_cases (q : TriviaQuestion) (d : RandDraw)
    (hlen : q.options.length = 4) (hden : q.correctIndex.den = 1)
    (h0 : 0 ≤ q.correctIndex) (h3 : q.correctIndex ≤ 3) :
    (shuffleOptions q d).correctIndex = 0 ∨ (shuffleOptions q d).correctIndex = 1 ∨
    (shuffleOptions q d).correctIndex = 2 ∨ (shuffleOptions q d).correctIndex = 3 := by
  have hnum0 : 0 ≤ q.correctIndex.num := Rat.num_nonneg.mpr h0
  have hq : (q.correctIndex.num : ℚ) = q.correctIndex := by
    conv_rhs => rw [← Rat.num_div_den q.correctIndex]
    rw [hden]
    simp
  have hnum3 : q.correctIndex.num ≤ 3 := by
    have h3' : (q.correctIndex.num : ℚ) ≤ ((3 : Int) : ℚ) := by
      rw [hq]; exact_mod_cast h3
    exact_mod_cast h3'
  have hlt : q.correctIndex.num.toNat < q.options.length := by omega
  have ha : jsIndexQ q.options q.correctIndex =
      some (q.options.get ⟨q.correctIndex.num.toNat, hlt⟩) := by
    unfold jsIndexQ
    rw [if_pos ⟨hden, hnum0⟩]
    exact List.get?_eq_get hlt
  set a := q.options.get ⟨q.correctIndex.num.toNat, hlt⟩ with ha_def
  have hmem : a ∈ q.options := jsIndexQ_mem ha
  have hmem' : a ∈ (shuffleOptions q d).options := (shuffled_perm q d hlen).mem_iff.mpr hmem
  obtain ⟨k, hk1, hk2⟩ := jsIndexOf_of_mem a _ hmem'
  have hkb : k < 4 := by
    have hlen' : (shuffleOptions q d).options.length = 4 :=
      (shuffled_perm q d hlen).length_eq.trans hlen
    have := (List.get?_eq_some.mp hk2).1
    omega
  have hci : (shuffleOptions q d).correctIndex = ((k : Int) : ℚ) := by
    rw [shuffleOptions_correctIndex, ha, hk1]
  have hk4 : k = 0 ∨ k = 1 ∨ k = 2 ∨ k = 3 := by omega
  rcases hk4 with rfl | rfl | rfl | rfl <;> simp [hci]

theorem shuffle_tracks (q : TriviaQuestion) (d : RandDraw) (hlen : q.options.length = 4) :
    jsIndexQ (shuffleOptions q d).options (shuffleOptions q d).correctIndex =
      jsIndexQ q.options q.correctIndex := by
  cases hca : jsIndexQ q.options q.correctIndex with
  | none =>
    have hneg : (shuffleOptions q d).correctIndex = ((-1 : Int) : ℚ) := by
      rw [shuffleOptions_correctIndex, hca]
      rfl
    rw [hneg, jsIndexQ_negOne]
  | some a =>
    have hmem : a ∈ q.options := jsIndexQ_mem hca
    have hmem' : a ∈ (shuffleOptions q d).options := (shuffled_perm q d hlen).mem_iff.mpr hmem
    obtain ⟨k, hk1, hk2⟩ := jsIndexOf_of_mem a _ hmem'
    rw [shuffleOptions_correctIndex, hca, hk1, jsIndexQ_natCast, hk2]

/-- C2 (counterexample): a candidate whose `correctIndex` is the JSON number
0.5 (a legal JS number in `[0, 3]`) passes every check of
`validateTriviaQuestions`, but `options[0.5]` is `undefined`, so the shuffle
recomputes `correctIndex` as `indexOf(undefined) = -1`: the returned question
violates the claimed `correctIndex ∈ {0,1,2,3}` invariant. -/
theorem validateTriviaQuestions_claim_false :
    ¬(∀ q ∈ validateTriviaQuestions
          [⟨"In which year was the stone bridge built?", ["a", "b", "c", "d"], halfQ, "hello"⟩]
          (fun _ => (0, 0, 0)),
        q.options.length = 4 ∧ (q.options.map normKey).dedup.length = 4 ∧
          (q.correctIndex = 0 ∨ q.correctIndex = 1 ∨ q.correctIndex = 2 ∨ q.correctIndex = 3) ∧
          5 ≤ (jsTrim q.funFact).length) := by
  decide

/-- C2 (amended): for every input list of candidates whose `correctIndex`
values are integral JS numbers, and every random tape, each question returned
by `validateTriviaQuestions` has exactly 4 options that are pairwise distinct
after lowercasing and trimming, a `correctIndex` in `{0, 1, 2, 3}`, and a
`funFact` whose trimmed length is at least 5. -/
theorem validateTriviaQuestions_invariants (qs : List TriviaQuestion)
    (tape : Nat → RandDraw) (hint : ∀ q ∈ qs, q.correctIndex.den = 1) :
    ∀ q' ∈ validateTriviaQuestions qs tape,
      q'.options.length = 4 ∧ (q'.options.map normKey).dedup.length = 4 ∧
        (q'.correctIndex = 0 ∨ q'.correctIndex = 1 ∨ q'.correctIndex = 2 ∨
          q'.correctIndex = 3) ∧
        5 ≤ (jsTrim q'.funFact).length := by
  intro q' hq'
  rw [validateTriviaQuestions] at hq'
  obtain ⟨q, hqmem, j, rfl⟩ := mem_mapShuffle hq'
  obtain ⟨hq_in, hok⟩ := List.mem_filter.mp hqmem
  obtain ⟨-, hlen, h0, h3, hdedup, -, hff, -⟩ := (triviaFilterOk_iff q).mp hok
  have hperm := shuffled_perm q (tape j) hlen
  refine ⟨hperm.length_eq.trans hlen, ?_, ?_, ?_⟩
  · have hp := (hperm.map normKey).dedup
    rw [hp.length_eq]
    exact hdedup
  · exact shuffle_correctIndex_cases q (tape j) hlen (hint q hq_in) h0 h3
  · rw [shuffleOptions_funFact]
    exact hff

/-- C2 (witness): the amended theorem applied to a concrete one-question
batch with an integral `correctIndex`. -/
theorem validateTriviaQuestions_invariants_witness :
    (shuffleOptions
        ⟨"In which year was the stone bridge built?", ["a", "b", "c", "d"], 2, "hello"⟩
        (0, 0, 0)).options.length = 4 ∧
      ((shuffleOptions
          ⟨"In which year was the stone bridge built?", ["a", "b", "c", "d"], 2, "hello"⟩
          (0, 0, 0)).options.map normKey).dedup.length = 4 ∧
        ((shuffleOptions
            ⟨"In which year was the stone bridge built?", ["a", "b", "c", "d"], 2, "hello"⟩
            (0, 0, 0)).correctIndex = 0 ∨
          (shuffleOptions
            ⟨"In which year was the stone bridge built?", ["a", "b", "c", "d"], 2, "hello"⟩
            (0, 0, 0)).correctIndex = 1 ∨
          (shuffleOptions
            ⟨"In which year was the stone bridge built?", ["a", "b", "c", "d"], 2, "hello"⟩
            (0, 0, 0)).correctIndex = 2 ∨
          (shuffleOptions
            ⟨"In which year was the stone bridge built?", ["a", "b", "c", "d"], 2, "hello"⟩
            (0, 0, 0)).correctIndex = 3) ∧
        5 ≤ (jsTrim (shuffleOptions
            ⟨"In which year was the stone bridge built?", ["a", "b", "c", "d"], 2, "hello"⟩
            (0, 0, 0)).funFact).length :=
  validateTriviaQuestions_invariants
    [⟨"In which year was the stone bridge built?", ["a", "b", "c", "d"], 2, "hello"⟩]
    (fun _ => (0, 0, 0)) (by decide) _ (by decide)

/-- C3: for every question with 4 options and `correctIndex` in `[0, 3]`, and
every random draw, `shuffleOptions` returns a permutation of the original
options, and the entry at the recomputed `correctIndex` is exactly the entry
at the original `correctIndex` (the correct answer is preserved and its index
recomputed to track it). -/
theorem shuffleOptions_spec (q : TriviaQuestion) (d : RandDraw)
    (hlen : q.options.length = 4) (h0 : 0 ≤ q.correctIndex) (h3 : q.correctIndex ≤ 3) :
    (shuffleOptions q d).options.Perm q.options ∧
      jsIndexQ (shuffleOptions q d).options (shuffleOptions q d).correctIndex =
        jsIndexQ q.options q.correctIndex :=
  ⟨shuffled_perm q d hlen, shuffle_tracks q d hlen⟩

/-- C3 (witness): the shuffle property at a concrete question and draw. -/
theorem shuffleOptions_spec_witness :
    (shuffleOptions ⟨"Which river?", ["Seine", "Loire", "Rhine", "Danube"], 1, "ff"⟩
        (2, 1, 0)).options.Perm ["Seine", "Loire", "Rhine", "Danube"] ∧
      jsIndexQ
          (shuffleOptions ⟨"Which river?", ["Seine", "Loire", "Rhine", "Danube"], 1, "ff"⟩
            (2, 1, 0)).options
          (shuffleOptions ⟨"Which river?", ["Seine", "Loire", "Rhine", "Danube"], 1, "ff"⟩
            (2, 1, 0)).correctIndex =
        jsIndexQ ["Seine", "Loire", "Rhine", "Danube"] 1 :=
  shuffleOptions_spec ⟨"Which river?", ["Seine", "Loire", "Rhine", "Danube"], 1, "ff"⟩
    (2, 1, 0) (by decide) (by decide) (by decide)

/-- C4: `checkAnswerDistribution` returns `false` on every batch of at least
4 questions all of whose `correctIndex` values are 0, returns `true` on every
batch containing a question with non-zero `correctIndex`, and returns `true`
on every batch of fewer than 4 questions. -/
theorem checkAnswerDistribution_spec (qs : List TriviaQuestion) :
    (4 ≤ qs.length → (∀ q ∈ qs, q.correctIndex = 0) →
        checkAnswerDistribution qs = false) ∧
      ((∃ q ∈ qs, q.correctIndex ≠ 0) → checkAnswerDistribution qs = true) ∧
      (qs.length < 4 → checkAnswerDistribution qs = true) := by
  refine ⟨?_, ?_, ?_⟩
  · intro h4 hall
    have hnotlt : ¬qs.length < 4 := by omega
    have hzero : qs.all (fun q => q.correctIndex == 0) = true := by
      rw [List.all_eq_true]
      intro q hq
      exact beq_iff_eq.mpr (hall q hq)
    simp [checkAnswerDistribution, hnotlt, hzero]
  · rintro ⟨q, hq, hne⟩
    by_cases hlt : qs.length < 4
    · simp [checkAnswerDistribution, hlt]
    · have hzero : qs.all (fun q => q.correctIndex == 0) = false := by
        rw [List.all_eq_false]
        exact ⟨q, hq, by simpa using hne⟩
      simp [checkAnswerDistribution, hlt, hzero]
  · intro hlt
    simp [checkAnswerDistribution, hlt]

/-- C4 (witness): the three cases of the distribution guard at concrete
batches. -/
theorem checkAnswerDistribution_spec_witness :
    checkAnswerDistribution
        [⟨"a", [], 0, ""⟩, ⟨"b", [], 0, ""⟩, ⟨"c", [], 0, ""⟩, ⟨"d", [], 0, ""⟩] = false ∧
      checkAnswerDistribution
        [⟨"a", [], 0, ""⟩, ⟨"b", [], 1, ""⟩, ⟨"c", [], 0, ""⟩, ⟨"d", [], 0, ""⟩] = true ∧
      checkAnswerDistribution [⟨"a", [], 0, ""⟩] = true :=
  ⟨(checkAnswerDistribution_spec _).1 (by decide) (by decide),
   (checkAnswerDistribution_spec _).2.1 ⟨⟨"b", [], 1, ""⟩, by decide, by decide⟩,
   (checkAnswerDistribution_spec _).2.2 (by decide)⟩

/-- C6: when the quiz generation pipeline throws, the catch handler answers
503 with empty `questions`/`questionIds` and source `"error"` exactly when the
request carried a (truthy) `cityPlaceId`; without one it answers 200 with the
shuffled curated/generic fallback questions and source `"fallback"`.  Curated
content is never substituted in the explicit-placeId case. -/
theorem quizCatchHandler_spec (city pid : String) (tape : Nat → RandDraw) :
    (pid ≠ "" → quizCatchHandler city pid tape = ⟨503, [], [], false, "error"⟩) ∧
      (pid = "" → quizCatchHandler city pid tape =
        ⟨200, mapShuffle tape 0 (getFallbackQuestions (if city == "" then "the city" else city)),
         [], false, "fallback"⟩) := by
  constructor
  · intro h
    have hb : (pid != "") = true := bne_iff_ne.mpr h
    simp [quizCatchHandler, hb]
  · intro h
    subst h
    simp [quizCatchHandler]

/-- C6 (witness): both branches of the catch handler at concrete requests. -/
theorem quizCatchHandler_spec_witness :
    quizCatchHandler "Paris" "place123" (fun _ => (0, 0, 0)) = ⟨503, [], [], false, "error"⟩ ∧
      quizCatchHandler "Paris" "" (fun _ => (0, 0, 0)) =
        ⟨200, mapShuffle (fun _ => (0, 0, 0)) 0 (getFallbackQuestions "Paris"), [], false,
          "fallback"⟩ := by
  constructor
  · exact (quizCatchHandler_spec "Paris" "place123" _).1 (by decide)
  · simpa using (quizCatchHandler_spec "Paris" "" (fun _ => (0, 0, 0))).2 rfl

/-- C7: in the suggestions ranking comparator, two items of equal popularity
decile with known distances are ordered by ascending distance (the closer one
compares negative, i.e. first), and items of different deciles are ordered by
descending decile. -/
theorem rankCompare_spec (popValues : List ℚ) (a b : RankedPOI) (da db : ℚ)
    (hne : popValues ≠ []) :
    (getBucket popValues a.popularityScore = getBucket popValues b.popularityScore →
        a.distanceKm = some da → b.distanceKm = some db → da < db →
        rankCompare popValues a b < 0 ∧ 0 < rankCompare popValues b a) ∧
      (getBucket popValues a.popularityScore ≠ getBucket popValues b.popularityScore →
        (rankCompare popValues a b < 0 ↔
          getBucket popValues b.popularityScore < getBucket popValues a.popularityScore)) := by
  constructor
  · intro hbuck hda hdb hlt
    constructor
    · simp only [rankCompare]
      rw [if_neg (fun h => h hbuck.symm), hda, hdb]
      exact sub_neg.mpr hlt
    · simp only [rankCompare]
      rw [if_neg (fun h => h hbuck), hdb, hda]
      exact sub_pos.mpr hlt
  · intro hbuck
    simp only [rankCompare]
    rw [if_pos (fun h => hbuck h.symm)]
    constructor
    · intro h
      have h2 : (getBucket popValues b.popularityScore -
          getBucket popValues a.popularityScore : Int) < 0 := by exact_mod_cast h
      omega
    · intro h
      have h2 : (getBucket popValues b.popularityScore -
          getBucket popValues a.popularityScore : Int) < 0 := by omega
      exact_mod_cast h2

/-- C7 (witness): with scores in the same decile and distances 2 km and 8 km,
the 2 km item compares before the 8 km one. -/
theorem rankCompare_spec_witness :
    rankCompare [1, 2, 3, 4]
        ⟨"Musee", 0, 0, "Culture", "", "pa", 4, 100, some 2, 3⟩
        ⟨"Tower", 0, 0, "Landmark", "", "pb", 4, 100, some 8, 3⟩ < 0 ∧
      0 < rankCompare [1, 2, 3, 4]
        ⟨"Tower", 0, 0, "Landmark", "", "pb", 4, 100, some 8, 3⟩
        ⟨"Musee", 0, 0, "Culture", "", "pa", 4, 100, some 2, 3⟩ :=
  (rankCompare_spec [1, 2, 3, 4]
      ⟨"Musee", 0, 0, "Culture", "", "pa", 4, 100, some 2, 3⟩
      ⟨"Tower", 0, 0, "Landmark", "", "pb", 4, 100, some 8, 3⟩ 2 8
      (by decide)).1 rfl rfl rfl (by decide)

/-- C8: `safeJsonParse` is total and follows the claimed cascade: the direct
parse of the fence-stripped text when it succeeds, else the parse of the
regex-extracted array (or, failing an array match, object) segment when that
succeeds, else `null`; and the quiz route converts a `null` parse into an
empty candidate list. -/
theorem safeJsonParse_cascade (jp : String → Option Json) (s : String) :
    (∀ v, jp (stripFences s) = some v → safeJsonParse jp s = v) ∧
      (jp (stripFences s) = none → ∀ seg, arrSeg s = some seg →
        (∀ v, jp seg = some v → safeJsonParse jp s = v) ∧
          (jp seg = none → safeJsonParse jp s = Json.null)) ∧
      (jp (stripFences s) = none → arrSeg s = none → ∀ seg, objSeg s = some seg →
        (∀ v, jp seg = some v → safeJsonParse jp s = v) ∧
          (jp seg = none → safeJsonParse jp s = Json.null)) ∧
      (jp (stripFences s) = none → arrSeg s = none → objSeg s = none →
        safeJsonParse jp s = Json.null) ∧
      quizCandidates Json.null = Json.arr [] := by
  refine ⟨?_, ?_, ?_, ?_, rfl⟩
  · intro v hv
    simp [safeJsonParse, hv]
  · intro h0 seg hseg
    constructor
    · intro v hv
      simp [safeJsonParse, h0, hseg, hv]
    · intro hv
      simp [safeJsonParse, h0, hseg, hv]
  · intro h0 ha seg hseg
    constructor
    · intro v hv
      simp [safeJsonParse, h0, ha, hseg, hv]
    · intro hv
      simp [safeJsonParse, h0, ha, hseg, hv]
  · intro h0 ha hob
    simp [safeJsonParse, h0, ha, hob]

/-- C8 (witness): a model output with no parsable JSON and no bracketed
segment yields `null`, which the quiz route turns into an empty list. -/
theorem safeJsonParse_cascade_witness :
    safeJsonParse (fun _ => none) "totally unparseable model output" = Json.null ∧
      quizCandidates Json.null = Json.arr [] :=
  ⟨(safeJsonParse_cascade (fun _ => none) "totally unparseable model output").2.2.2.1
      rfl rfl rfl,
   (safeJsonParse_cascade (fun _ => none) "totally unparseable model output").2.2.2.2⟩

/-! ## Suggestion validation lemmas -/

theorem validateSuggestionsGo_mem (tset pset : List String) :
    ∀ (seen : List String) (l : List Suggestion) (s : Suggestion),
      s ∈ validateSuggestionsGo tset pset seen l →
      normKey s.title ∉ tset ∧ normKey s.title ∉ seen ∧
        ¬(s.placeId ≠ "" ∧ s.placeId ∈ pset) ∧
        s.title ≠ "" ∧ s.description ≠ "" ∧ s.category ≠ "" := by
  intro seen l
  induction l generalizing seen with
  | nil =>
    intro s h
    simp [validateSuggestionsGo] at h
  | cons s₀ rest ih =>
    intro s h
    rw [validateSuggestionsGo] at h
    split at h
    · split at h
      · exact ih seen s h
      · split at h
        · exact ih seen s h
        · rcases List.mem_cons.mp h with rfl | htail
          · rename_i hok hcont hpid
            have hok' : s.title ≠ "" ∧ s.description ≠ "" ∧ s.category ≠ "" := by
              simpa [Bool.and_eq_true, bne_iff_ne, and_assoc] using hok
            have hcont' : normKey s.title ∉ tset ∧ normKey s.title ∉ seen := by
              simpa using hcont
            have hpid' : ¬(s.placeId ≠ "" ∧ s.placeId ∈ pset) := by
              simpa [Bool.and_eq_true, bne_iff_ne] using hpid
            exact ⟨hcont'.1, hcont'.2, hpid', hok'⟩
          · have h' := ih (normKey s₀.title :: seen) s htail
            exact ⟨h'.1, fun hm => h'.2.1 (List.mem_cons_of_mem _ hm), h'.2.2⟩
    · exact ih seen s h

theorem validateSuggestionsGo_pairwise (tset pset : List String) :
    ∀ (seen : List String) (l : List Suggestion),
      (validateSuggestionsGo tset pset seen l).Pairwise
        (fun a b => normKey a.title ≠ normKey b.title) := by
  intro seen l
  induction l generalizing seen with
  | nil => simp [validateSuggestionsGo]
  | cons s₀ rest ih =>
    rw [validateSuggestionsGo]
    split
    · split
      · exact ih seen
      · split
        · exact ih seen
        · refine List.Pairwise.cons ?_ (ih (normKey s₀.title :: seen))
          intro b hb hkey
          have hbmem := (validateSuggestionsGo_mem tset pset (normKey s₀.title :: seen) rest b hb).2.1
          exact hbmem (hkey ▸ List.mem_cons_self _ _)
    · exact ih seen

/-- C9: the output of `validateSuggestions` has pairwise-distinct normalized
titles (the seen-set dedup), contains no entry from the excluded-title or
excluded-placeId sets, and every entry has non-empty title, description and
category. -/
theorem validateSuggestions_spec (sgs : List Suggestion) (exT exP : List String) :
    (validateSuggestions sgs exT exP).Pairwise
        (fun a b => normKey a.title ≠ normKey b.title) ∧
      ∀ s ∈ validateSuggestions sgs exT exP,
        normKey s.title ∉ exT.map normKey ∧
          s.placeId ∉ exP.filter (fun p => p != "") ∧
          s.title ≠ "" ∧ s.description ≠ "" ∧ s.category ≠ "" := by
  constructor
  · exact validateSuggestionsGo_pairwise _ _ [] sgs
  · intro s hs
    have h := validateSuggestionsGo_mem (exT.map normKey) (exP.filter (fun p => p != ""))
      [] sgs s hs
    refine ⟨h.1, ?_, h.2.2.2⟩
    intro hmem
    have hne : s.placeId ≠ "" := by
      have := (List.mem_filter.mp hmem).2
      simpa [bne_iff_ne] using this
    exact h.2.2.1 ⟨hne, hmem⟩

/-- The response the geocode endpoint serves from a stored cache entry:
coordinates with 200, or 404 for a stored null failure marker. -/
def storedResponse (stored : Option GeoCoords) : GeoResponse :=
  match stored with
  | some c => ⟨200, some c⟩
  | none => ⟨404, none⟩

/-- C10: once the geocode cache holds an entry (coordinates or the null
failure marker) for the normalized address, every request for that address
returns the stored outcome, leaves the cache unchanged, issues no provider
query, and behaves identically at any two times — the cache has no TTL, so a
stored failure is never retried. -/
theorem geocodeStep_cached (cache : List (String × Option GeoCoords))
    (address : String) (prov : ProviderOutcome) (t₁ t₂ : Nat)
    (stored : Option GeoCoords) (haddr : address ≠ "")
    (hc : cache.lookup (normKey address) = some stored) :
    geocodeStep cache t₁ address prov = (storedResponse stored, cache, false) ∧
      geocodeStep cache t₁ address prov = geocodeStep cache t₂ address prov := by
  have hb : (address == "") = false := by simpa using haddr
  constructor
  · rw [geocodeStep]
    simp only [hb, Bool.false_eq_true, if_false, hc]
    cases stored <;> rfl
  · rfl

/-- C10 (witness): a cached success and the time-independence of a lookup, at
a concrete cache and address. -/
theorem geocodeStep_cached_witness :
    geocodeStep [("paris", some ⟨2, 3⟩), ("atlantis", none)] 0 " Paris "
        ProviderOutcome.networkError =
      (storedResponse (some ⟨2, 3⟩), [("paris", some ⟨2, 3⟩), ("atlantis", none)], false) ∧
      geocodeStep [("paris", some ⟨2, 3⟩), ("atlantis", none)] 0 " Paris "
          ProviderOutcome.networkError =
        geocodeStep [("paris", some ⟨2, 3⟩), ("atlantis", none)] 999999999 " Paris "
          ProviderOutcome.networkError :=
  geocodeStep_cached [("paris", some ⟨2, 3⟩), ("atlantis", none)] " Paris "
    ProviderOutcome.networkError 0 999999999 (some ⟨2, 3⟩) (by decide) (by decide)
